import Mathlib

/-!
Mixer task scheduling of `radio/src/tasks.cpp`

A shallow embedding of the scheduling code of `tasks.cpp`:

* `isForcePowerOffRequested`, the debounce of the power button,
* `isModuleSynchronous`, the classification of the channel protocols,
* `sendSynchronousPulses`, the dispatch of the frames,
* one outer cycle of `mixerTask`,
* `scheduleNextMixerCalculation`, the per-module deadline.

Machine integers are natural numbers reduced modulo `2 ^ 16` or `2 ^ 32` where
the C code stores them in a `uint16_t` or `uint32_t`.  Calls to collaborators
that are only declared in `opentx.h` appear as events of a trace, and the values
they return are read from an environment.  The `DEBUG_TIMER_*` macros only
record diagnostics and are left out; `RTOS_GET_TIME()` is read as one tick
count for the length of a call of `scheduleNextMixerCalculation`.
-/

namespace OpenTX

/-! ## Build configuration -/

/-- The preprocessor symbols and header constants `tasks.cpp` depends on.  One
value of this structure is one build of the firmware. -/
structure Build where
  /-- The constant `RTOS_MS_PER_TICK`, the length of an RTOS tick in milliseconds. -/
  RTOS_MS_PER_TICK : Nat
  /-- The constant `INTERNAL_MODULE`, the index of the internal module. -/
  INTERNAL_MODULE : Nat
  /-- The constant `EXTERNAL_MODULE`, the index of the external module. -/
  EXTERNAL_MODULE : Nat
  /-- The constant `HEART_WDT_CHECK`, the heartbeat value at which the watchdog is fed. -/
  HEART_WDT_CHECK : Nat
  MULTIMODULE : Bool
  INTMODULE_USART : Bool
  EXTMODULE_USART : Bool
  DSM2 : Bool
  HARDWARE_INTERNAL_MODULE : Bool
  HARDWARE_EXTERNAL_MODULE : Bool
  SBUS_TRAINER : Bool
  GYRO : Bool
  BLUETOOTH : Bool
  PCBSKY9X : Bool
  DEBUG_MIXER_SCHEDULER : Bool
  SIMU : Bool
  INTERNAL_MODULE_CRSF : Bool
  STM32 : Bool

/-! ## Protocols -/

/-- The enumerators of the channel protocol that `tasks.cpp` names, and
`other` for every enumerator it does not name (the enumeration itself is
declared in a header). -/
inductive Protocol where
  | PROTOCOL_CHANNELS_PXX2_HIGHSPEED
  | PROTOCOL_CHANNELS_PXX2_LOWSPEED
  | PROTOCOL_CHANNELS_CROSSFIRE
  | PROTOCOL_CHANNELS_GHOST
  | PROTOCOL_CHANNELS_AFHDS3
  | PROTOCOL_CHANNELS_NONE
  | PROTOCOL_CHANNELS_MULTIMODULE
  | PROTOCOL_CHANNELS_PXX1_SERIAL
  | PROTOCOL_CHANNELS_PPM
  | PROTOCOL_CHANNELS_PXX1_PULSES
  | PROTOCOL_CHANNELS_SBUS
  | PROTOCOL_CHANNELS_DSM2_LP45
  | PROTOCOL_CHANNELS_DSM2_DSM2
  | PROTOCOL_CHANNELS_DSM2_DSMX
  | other (code : Nat)
  deriving DecidableEq, Repr

/-- The switch of `isModuleSynchronous` on a protocol: the case labels that the
build compiles in return `true`, everything else falls out of the switch and
returns `false`. -/
def protocolSynchronous (b : Build) : Protocol → Bool
  | .PROTOCOL_CHANNELS_PXX2_HIGHSPEED => true
  | .PROTOCOL_CHANNELS_PXX2_LOWSPEED => true
  | .PROTOCOL_CHANNELS_CROSSFIRE => true
  | .PROTOCOL_CHANNELS_GHOST => true
  | .PROTOCOL_CHANNELS_AFHDS3 => true
  | .PROTOCOL_CHANNELS_NONE => true
  | .PROTOCOL_CHANNELS_MULTIMODULE => b.MULTIMODULE
  | .PROTOCOL_CHANNELS_PXX1_SERIAL => b.INTMODULE_USART || b.EXTMODULE_USART
  | .PROTOCOL_CHANNELS_PXX1_PULSES => true
  | .PROTOCOL_CHANNELS_SBUS => b.DSM2
  | .PROTOCOL_CHANNELS_DSM2_LP45 => b.DSM2
  | .PROTOCOL_CHANNELS_DSM2_DSM2 => b.DSM2
  | .PROTOCOL_CHANNELS_DSM2_DSMX => b.DSM2
  | .PROTOCOL_CHANNELS_PPM => false
  | .other _ => false

/-- The function `isModuleSynchronous(moduleIdx)`: the switch on
`moduleState[moduleIdx].protocol`.  The array `moduleState` is the function
`moduleState` from module index to protocol. -/
def isModuleSynchronous (b : Build) (moduleState : Nat → Protocol) (moduleIdx : Nat) : Bool :=
  protocolSynchronous b (moduleState moduleIdx)

/-! ## The deadline of a module -/

/-- The number of values of a `uint32_t`, `2 ^ 32`. -/
def UINT32 : Nat := 4294967296

/-- The number of values of a `uint16_t`, `2 ^ 16`. -/
def UINT16 : Nat := 65536

/-- The expression `period_ms / RTOS_MS_PER_TICK`. -/
def periodTicks (b : Build) (period_ms : Nat) : Nat :=
  period_ms / b.RTOS_MS_PER_TICK

/-- Assignment `a[i] = v` on an array seen as a function. -/
def setAt (a : Nat → Nat) (i v : Nat) : Nat → Nat :=
  fun j => if j = i then v else a j

/-- The function `scheduleNextMixerCalculation(module, period_ms)`.  The array
`nextMixerTime` of `uint32_t` is a function from module index to tick count;
`now` is the tick count `RTOS_GET_TIME()` returns during the call.  The result
is the array after the call. -/
def scheduleNextMixerCalculation (b : Build) (moduleState : Nat → Protocol)
    (nextMixerTime : Nat → Nat) (module period_ms now : Nat) : Nat → Nat :=
  if isModuleSynchronous b moduleState module then
    -- nextMixerTime[module] += period_ms / RTOS_MS_PER_TICK;
    let advanced := setAt nextMixerTime module
      ((nextMixerTime module + periodTicks b period_ms) % UINT32)
    if advanced module < now then
      -- we are late
      setAt advanced module ((now + periodTicks b period_ms) % UINT32)
    else
      advanced
  else
    setAt nextMixerTime module ((now + periodTicks b period_ms) % UINT32)

/-- The values `nextMixerTime[module]` takes after each call of a sequence of
calls `scheduleNextMixerCalculation(module, period_ms)`, the calls being made at
the ticks `nows`. -/
def scheduleTrace (b : Build) (moduleState : Nat → Protocol) (module period_ms : Nat) :
    (Nat → Nat) → List Nat → List Nat
  | _, [] => []
  | nextMixerTime, now :: rest =>
    (scheduleNextMixerCalculation b moduleState nextMixerTime module period_ms now) module ::
      scheduleTrace b moduleState module period_ms
        (scheduleNextMixerCalculation b moduleState nextMixerTime module period_ms now) rest

/-- A build with every optional feature compiled in, ticks of 1 ms, the internal
module at index 0 and the external module at index 1. -/
def fullBuild : Build where
  RTOS_MS_PER_TICK := 1
  INTERNAL_MODULE := 0
  EXTERNAL_MODULE := 1
  HEART_WDT_CHECK := 7
  MULTIMODULE := true
  INTMODULE_USART := true
  EXTMODULE_USART := true
  DSM2 := true
  HARDWARE_INTERNAL_MODULE := true
  HARDWARE_EXTERNAL_MODULE := true
  SBUS_TRAINER := true
  GYRO := true
  BLUETOOTH := true
  PCBSKY9X := false
  DEBUG_MIXER_SCHEDULER := false
  SIMU := false
  INTERNAL_MODULE_CRSF := true
  STM32 := true

/-- Module state with a synchronous protocol (PXX2) on every module. -/
def pxx2Modules : Nat → Protocol := fun _ => .PROTOCOL_CHANNELS_PXX2_HIGHSPEED

/-- Module state with the asynchronous PPM protocol on every module. -/
def ppmModules : Nat → Protocol := fun _ => .PROTOCOL_CHANNELS_PPM

/-! ## The debounce of the power button -/

/-- Modelled from the spec: the body of `resetForcePowerOffRequest()` is in a
header, not in `tasks.cpp`; section 4.2 says that on release the timestamp is
cleared, so the value it stores into `timeForcePowerOffPressed` is zero. -/
def resetForcePowerOffRequest : Nat := 0

/-- The function `isForcePowerOffRequested()`.  The arguments are the `uint16_t`
`timeForcePowerOffPressed` before the call, the value of `pwrOffPressed()` and
the value of `get_tmr10ms()`; the result is the returned boolean and
`timeForcePowerOffPressed` after the call. -/
def isForcePowerOffRequested (timeForcePowerOffPressed : Nat) (pwrOffPressed : Bool)
    (tmr10ms : Nat) : Bool × Nat :=
  if pwrOffPressed then
    if timeForcePowerOffPressed = 0 then
      -- timeForcePowerOffPressed = get_tmr10ms();
      (false, tmr10ms % UINT16)
    else
      -- uint16_t delay = (uint16_t)get_tmr10ms() - timeForcePowerOffPressed;
      let delay := (tmr10ms % UINT16 + UINT16 - timeForcePowerOffPressed) % UINT16
      if delay > 1000 then
        (true, timeForcePowerOffPressed)
      else
        (false, timeForcePowerOffPressed)
  else
    (false, resetForcePowerOffRequest)

/-- The values returned by successive polls of `isForcePowerOffRequested`, each
poll given as the button reading and the value of the 10 ms counter, starting
with the timestamp `ts`. -/
def pollAll : Nat → List (Bool × Nat) → List Bool
  | _, [] => []
  | ts, poll :: rest =>
    (isForcePowerOffRequested ts poll.1 poll.2).1 ::
      pollAll (isForcePowerOffRequested ts poll.1 poll.2).2 rest

/-- The polls `j` to `k` all read the button as pressed. -/
def PressedFrom (polls : List (Bool × Nat)) (j k : Nat) : Prop :=
  ∀ i, j ≤ i → i ≤ k → (polls[i]?).map Prod.fst = some true

/-! ## The mixer task -/

/-- The calls of `mixerTask` and of the functions it calls that leave
`tasks.cpp`, in the order they are made. -/
inductive Event where
  | processSbusInput
  | gyroWakeup
  | bluetoothWakeup
  | execMixerFrequentActions
  | mixerSchedulerWaitForTrigger (timeout : Nat)
  | GPIO_SetBits
  | GPIO_ResetBits
  | mixerSchedulerClearTrigger
  | mixerSchedulerEnableTrigger
  | pwrCheck
  | TASK_RETURN
  | isForcePowerOffRequested
  | boardOff
  | clearMixerTaskSchedule
  | RTOS_LOCK_MUTEX_mixerMutex
  | doMixerCalculations
  | sendSynchronousPulses (runMask : Nat)
  | setupPulsesInternalModule
  | intmoduleSendNextFrame
  | setupPulsesExternalModule
  | extmoduleSendNextFrame
  | doMixerPeriodicUpdates
  | RTOS_UNLOCK_MUTEX_mixerMutex
  | usbJoystickUpdate
  | updateIntCrossfireChannels
  | telemetryWakeup
  | WDG_RESET
  deriving DecidableEq, Repr

/-- What the collaborators return during one outer cycle of `mixerTask`. -/
structure CycleEnv where
  /-- The value of the `i`-th call of `mixerSchedulerWaitForTrigger` of the cycle:
  `true` when the wait ended by its timeout. -/
  interruptedByTimeout : Nat → Bool
  /-- Whether `pwrCheck() == e_power_off`. -/
  pwrCheckPowerOff : Bool
  /-- The value of `pwrOffPressed()`. -/
  pwrOffPressed : Bool
  /-- The value of `get_tmr10ms()`. -/
  tmr10ms : Nat
  /-- Whether `g_model.moduleData[EXTERNAL_MODULE].type == MODULE_TYPE_CROSSFIRE`. -/
  externalModuleCrossfire : Bool
  /-- The value of `isMixerTaskScheduled()`. -/
  mixerTaskScheduled : Bool
  /-- The value of `s_pulses_paused` read by the cycle. -/
  s_pulses_paused : Bool
  /-- The value of `getTmr2MHz()` before the mixing. -/
  tmr2MHzStart : Nat
  /-- The value of `getTmr2MHz()` after the mixing. -/
  tmr2MHzEnd : Nat
  /-- The array `moduleState`, by its protocols. -/
  moduleState : Nat → Protocol
  /-- The value `setupPulsesInternalModule()` returns when called. -/
  setupPulsesInternalModule : Bool
  /-- The value `setupPulsesExternalModule()` returns when called. -/
  setupPulsesExternalModule : Bool
  /-- Whether `getSelectedUsbMode() == USB_JOYSTICK_MODE`. -/
  usbJoystickMode : Bool
  /-- The value of `IS_INTERNAL_MODULE_ENABLED()`. -/
  internalModuleEnabled : Bool

/-- The globals `mixerTask` writes. -/
structure TaskState where
  timeForcePowerOffPressed : Nat
  heartbeat : Nat
  maxMixerDuration : Nat
  deriving DecidableEq, Repr

/-- The outcome of one outer cycle: the calls made, the globals afterwards and
whether the task returned (`TASK_RETURN`) instead of looping. -/
structure CycleResult where
  trace : List Event
  state : TaskState
  returned : Bool

/-- The constant `MIXER_FREQUENT_ACTIONS_PERIOD`, in ms. -/
def MIXER_FREQUENT_ACTIONS_PERIOD : Nat := 5

/-- The constant `MIXER_MAX_PERIOD`, in ms. -/
def MIXER_MAX_PERIOD : Nat := 30

/-- The function `execMixerFrequentActions()`: the call itself, then the calls it
makes. -/
def execMixerFrequentActions (b : Build) : List Event :=
  [Event.execMixerFrequentActions] ++
  (if b.SBUS_TRAINER then [Event.processSbusInput] else []) ++
  (if b.GYRO then [Event.gyroWakeup] else []) ++
  (if b.BLUETOOTH then [Event.bluetoothWakeup] else [])

/-- The test `runMask & (1 << module)` of `sendSynchronousPulses`. -/
def maskHas (runMask module : Nat) : Bool :=
  (runMask &&& (1 <<< module)) != 0

/-- The body of `sendSynchronousPulses(runMask)`; `setupInt` and `setupExt` are
the values `setupPulsesInternalModule()` and `setupPulsesExternalModule()`
return when they are called. -/
def sendSynchronousPulses (b : Build) (moduleState : Nat → Protocol)
    (setupInt setupExt : Bool) (runMask : Nat) : List Event :=
  (if b.HARDWARE_INTERNAL_MODULE then
    if maskHas runMask b.INTERNAL_MODULE && isModuleSynchronous b moduleState b.INTERNAL_MODULE then
      Event.setupPulsesInternalModule ::
        (if setupInt then [Event.intmoduleSendNextFrame] else [])
    else []
  else []) ++
  (if b.HARDWARE_EXTERNAL_MODULE then
    if maskHas runMask b.EXTERNAL_MODULE && isModuleSynchronous b moduleState b.EXTERNAL_MODULE then
      Event.setupPulsesExternalModule ::
        (if setupExt then [Event.extmoduleSendNextFrame] else [])
    else []
  else [])

/-- The inner `for` loop of `mixerTask`, entered with the loop variable
`timeout`; `call` counts the calls of `mixerSchedulerWaitForTrigger` made so
far in the cycle. -/
def waitLoop (b : Build) (interruptedByTimeout : Nat → Bool) (timeout call : Nat) : List Event :=
  if timeout < MIXER_MAX_PERIOD then
    execMixerFrequentActions b ++
      Event.mixerSchedulerWaitForTrigger MIXER_FREQUENT_ACTIONS_PERIOD ::
        (if interruptedByTimeout call then
          waitLoop b interruptedByTimeout (timeout + MIXER_FREQUENT_ACTIONS_PERIOD) (call + 1)
        else
          [])
  else
    []
termination_by MIXER_MAX_PERIOD - timeout
decreasing_by
  simp only [MIXER_MAX_PERIOD, MIXER_FREQUENT_ACTIONS_PERIOD] at *
  omega

/-- One iteration of the inner loop: `execMixerFrequentActions()` followed by
one call `mixerSchedulerWaitForTrigger(MIXER_FREQUENT_ACTIONS_PERIOD)`. -/
def waitIteration (b : Build) : List Event :=
  execMixerFrequentActions b ++
    [Event.mixerSchedulerWaitForTrigger MIXER_FREQUENT_ACTIONS_PERIOD]

/-- The calls that `mixerTask` makes between the lock and the unlock of
`mixerMutex`, both included. -/
def Event.inMixingPass : Event → Bool
  | .RTOS_LOCK_MUTEX_mixerMutex => true
  | .doMixerCalculations => true
  | .sendSynchronousPulses _ => true
  | .setupPulsesInternalModule => true
  | .intmoduleSendNextFrame => true
  | .setupPulsesExternalModule => true
  | .extmoduleSendNextFrame => true
  | .doMixerPeriodicUpdates => true
  | .RTOS_UNLOCK_MUTEX_mixerMutex => true
  | _ => false

/-- The run mask `mixerTask` passes to `sendSynchronousPulses`, a `uint8_t`. -/
def mixerRunMask (b : Build) : Nat :=
  if b.HARDWARE_INTERNAL_MODULE && b.HARDWARE_EXTERNAL_MODULE then
    ((1 <<< b.INTERNAL_MODULE) ||| (1 <<< b.EXTERNAL_MODULE)) % 256
  else if b.HARDWARE_INTERNAL_MODULE then
    (1 <<< b.INTERNAL_MODULE) % 256
  else
    (1 <<< b.EXTERNAL_MODULE) % 256

/-- The call of `sendSynchronousPulses` in `mixerTask` and what it does; no call
is compiled when the build has neither module. -/
def dispatch (b : Build) (env : CycleEnv) : List Event :=
  if b.HARDWARE_INTERNAL_MODULE || b.HARDWARE_EXTERNAL_MODULE then
    Event.sendSynchronousPulses (mixerRunMask b) ::
      sendSynchronousPulses b env.moduleState env.setupPulsesInternalModule
        env.setupPulsesExternalModule (mixerRunMask b)
  else
    []

/-- The cycle from its start to the test of `s_pulses_paused`, without the
forced power-off check: the inner loop and the re-arming of the trigger. -/
def cycleWait (b : Build) (env : CycleEnv) : List Event :=
  waitLoop b env.interruptedByTimeout 0 0 ++
  (if b.DEBUG_MIXER_SCHEDULER then [Event.GPIO_SetBits, Event.GPIO_ResetBits] else []) ++
  (if !b.PCBSKY9X then
    [Event.mixerSchedulerClearTrigger, Event.mixerSchedulerEnableTrigger]
  else [])

/-- The clearing of a stale schedule, compiled with `INTERNAL_MODULE_CRSF`. -/
def cycleCrsf (b : Build) (env : CycleEnv) : List Event :=
  if b.INTERNAL_MODULE_CRSF && (env.externalModuleCrossfire && env.mixerTaskScheduled) then
    [Event.clearMixerTaskSchedule]
  else []

/-- The calls of a cycle up to the test of `s_pulses_paused`. -/
def cycleHead (b : Build) (env : CycleEnv) (s : TaskState) : List Event :=
  if b.SIMU then
    cycleWait b env ++ [Event.pwrCheck] ++ cycleCrsf b env
  else
    cycleWait b env ++ Event.isForcePowerOffRequested ::
      (if (isForcePowerOffRequested s.timeForcePowerOffPressed env.pwrOffPressed
          env.tmr10ms).1 then [Event.boardOff] else []) ++ cycleCrsf b env

/-- The calls of the block `if (!s_pulses_paused)` from the lock of
`mixerMutex` to its unlock. -/
def mixingPass (b : Build) (env : CycleEnv) : List Event :=
  [Event.RTOS_LOCK_MUTEX_mixerMutex, Event.doMixerCalculations] ++
  dispatch b env ++
  [Event.doMixerPeriodicUpdates, Event.RTOS_UNLOCK_MUTEX_mixerMutex]

/-- The calls of the block `if (!s_pulses_paused)` after the unlock of
`mixerMutex`; `heartbeat` is the global before the block. -/
def afterMixing (b : Build) (env : CycleEnv) (heartbeat : Nat) : List Event :=
  (if b.STM32 && !b.SIMU then
    (if env.usbJoystickMode then [Event.usbJoystickUpdate] else []) ++
    (if b.INTERNAL_MODULE_CRSF && env.internalModuleEnabled then
      [Event.updateIntCrossfireChannels] else [])
  else []) ++
  (if b.PCBSKY9X && !b.SIMU then [Event.usbJoystickUpdate] else []) ++
  [Event.telemetryWakeup] ++
  (if heartbeat = b.HEART_WDT_CHECK then [Event.WDG_RESET] else [])

/-- The block `if (!s_pulses_paused)` of `mixerTask`, entered after the calls
`before` with the globals `s`. -/
def pausedCheck (b : Build) (env : CycleEnv) (s : TaskState) (before : List Event) :
    CycleResult :=
  if !env.s_pulses_paused then
    -- uint16_t t0 = getTmr2MHz(); ... t0 = getTmr2MHz() - t0;
    let t0 := (env.tmr2MHzEnd % UINT16 + UINT16 - env.tmr2MHzStart % UINT16) % UINT16
    { trace := before ++ mixingPass b env ++ afterMixing b env s.heartbeat
      state :=
        { timeForcePowerOffPressed := s.timeForcePowerOffPressed
          heartbeat := if s.heartbeat = b.HEART_WDT_CHECK then 0 else s.heartbeat
          maxMixerDuration := if t0 > s.maxMixerDuration then t0 else s.maxMixerDuration }
      returned := false }
  else
    { trace := before, state := s, returned := false }

/-- One pass through the body of `while (true)` in `mixerTask`, started with the
globals `s`. -/
def mixerCycle (b : Build) (env : CycleEnv) (s : TaskState) : CycleResult :=
  if b.SIMU then
    if env.pwrCheckPowerOff then
      { trace := cycleWait b env ++ [Event.pwrCheck, Event.TASK_RETURN]
        state := s
        returned := true }
    else
      pausedCheck b env s (cycleWait b env ++ [Event.pwrCheck] ++ cycleCrsf b env)
  else
    let r := isForcePowerOffRequested s.timeForcePowerOffPressed env.pwrOffPressed env.tmr10ms
    pausedCheck b env { s with timeForcePowerOffPressed := r.2 }
      (cycleWait b env ++ Event.isForcePowerOffRequested ::
        (if r.1 then [Event.boardOff] else []) ++ cycleCrsf b env)

/-- An environment in which every wait times out, the button is not pressed,
both modules run PXX2 and are ready, and mixing is not paused. -/
def idleEnv : CycleEnv where
  interruptedByTimeout := fun _ => true
  pwrCheckPowerOff := false
  pwrOffPressed := false
  tmr10ms := 1
  externalModuleCrossfire := false
  mixerTaskScheduled := false
  s_pulses_paused := false
  tmr2MHzStart := 0
  tmr2MHzEnd := 100
  moduleState := pxx2Modules
  setupPulsesInternalModule := true
  setupPulsesExternalModule := true
  usbJoystickMode := false
  internalModuleEnabled := false

/-- An environment in which every wait times out, both modules run PXX2 and are
ready, and mixing is paused. -/
def pausedEnv : CycleEnv := { idleEnv with s_pulses_paused := true }

/-- The full build compiled for the simulator (`SIMU` defined). -/
def simuBuild : Build := { fullBuild with SIMU := true }

/-- An environment as `idleEnv`, mixing not paused, in which `pwrCheck()` reports
`e_power_off`. -/
def powerOffEnv : CycleEnv := { idleEnv with pwrCheckPowerOff := true }

/-- The globals at the start of the task. -/
def initState : TaskState where
  timeForcePowerOffPressed := 0
  heartbeat := 0
  maxMixerDuration := 0

/-! ## Lemmas on the embedding -/

theorem waitLoop_lt (b : Build) (w : Nat → Bool) (timeout call : Nat)
    (h : timeout < MIXER_MAX_PERIOD) :
    waitLoop b w timeout call =
      execMixerFrequentActions b ++
        Event.mixerSchedulerWaitForTrigger MIXER_FREQUENT_ACTIONS_PERIOD ::
          (if w call then waitLoop b w (timeout + MIXER_FREQUENT_ACTIONS_PERIOD) (call + 1)
          else []) := by
  rw [waitLoop, if_pos h]

theorem waitLoop_ge (b : Build) (w : Nat → Bool) (timeout call : Nat)
    (h : MIXER_MAX_PERIOD ≤ timeout) : waitLoop b w timeout call = [] := by
  rw [waitLoop, if_neg (by omega)]

theorem setAt_same (a : Nat → Nat) (i v : Nat) : setAt a i v i = v := by
  simp [setAt]

/-- The value stored for a synchronous module, as one expression. -/
theorem schedule_sync_value (b : Build) (moduleState : Nat → Protocol)
    (nextMixerTime : Nat → Nat) (module period_ms now : Nat)
    (hsync : isModuleSynchronous b moduleState module = true) :
    scheduleNextMixerCalculation b moduleState nextMixerTime module period_ms now module =
      if (nextMixerTime module + periodTicks b period_ms) % UINT32 < now then
        (now + periodTicks b period_ms) % UINT32
      else (nextMixerTime module + periodTicks b period_ms) % UINT32 := by
  simp only [scheduleNextMixerCalculation, hsync, if_true, setAt_same]
  split <;> simp [setAt_same]

/-- The value stored for an asynchronous module. -/
theorem schedule_async_value (b : Build) (moduleState : Nat → Protocol)
    (nextMixerTime : Nat → Nat) (module period_ms now : Nat)
    (hasync : isModuleSynchronous b moduleState module = false) :
    scheduleNextMixerCalculation b moduleState nextMixerTime module period_ms now module =
      (now + periodTicks b period_ms) % UINT32 := by
  simp [scheduleNextMixerCalculation, hasync, setAt_same]

theorem pressedFrom_cons_succ (q : Bool × Nat) (rest : List (Bool × Nat)) (j k : Nat)
    (h : PressedFrom rest j k) : PressedFrom (q :: rest) (j + 1) (k + 1) := by
  intro i hj hk
  obtain ⟨i', rfl⟩ : ∃ i', i = i' + 1 := ⟨i - 1, by omega⟩
  simpa using h i' (by omega) (by omega)

theorem pressedFrom_cons_zero (q : Bool × Nat) (rest : List (Bool × Nat)) (k : Nat)
    (hq : q.1 = true) (h : PressedFrom rest 0 k) : PressedFrom (q :: rest) 0 (k + 1) := by
  intro i _ hk
  cases i with
  | zero => simp [hq]
  | succ i' => simpa using h i' (by omega) (by omega)

theorem force_true (ts : Nat) (p : Bool) (t : Nat)
    (h : (isForcePowerOffRequested ts p t).1 = true) :
    p = true ∧ ts ≠ 0 ∧ (t % UINT16 + UINT16 - ts) % UINT16 > 1000 := by
  simp only [isForcePowerOffRequested] at h
  split at h
  · split at h
    · simp at h
    · split at h
      · simp_all
      · simp at h
  · simp at h

theorem force_state (ts : Nat) (p : Bool) (t : Nat) :
    (isForcePowerOffRequested ts p t).2 =
      if p = true then (if ts = 0 then t % UINT16 else ts) else 0 := by
  simp only [isForcePowerOffRequested, resetForcePowerOffRequest]
  split
  · split
    · rfl
    · split <;> rfl
  · rfl

theorem pollAll_true_run (polls : List (Bool × Nat)) :
    ∀ (ts t0 k : Nat), (ts = 0 ∨ ts = t0 % UINT16) → (∀ q ∈ polls, t0 ≤ q.2) →
      polls.Pairwise (fun a c => a.2 ≤ c.2) → (pollAll ts polls)[k]? = some true →
      (ts ≠ 0 ∧ PressedFrom polls 0 k ∧ ∃ tk, (polls[k]?).map Prod.snd = some tk ∧ t0 + 1000 < tk) ∨
      (∃ j tj tk, j < k ∧ (polls[j]?).map Prod.snd = some tj ∧
        (polls[k]?).map Prod.snd = some tk ∧ tj + 1000 < tk ∧ PressedFrom polls j k) := by
  induction polls with
  | nil => intro ts t0 k _ _ _ h; simp [pollAll] at h
  | cons poll rest ih =>
    intro ts t0 k hts hge hsorted h
    obtain ⟨p, t⟩ := poll
    have ht0 : t0 ≤ t := hge (p, t) (List.mem_cons_self _ _)
    have hrest : ∀ q ∈ rest, t0 ≤ q.2 := fun q hq => hge q (List.mem_cons_of_mem _ hq)
    rw [List.pairwise_cons] at hsorted
    cases k with
    | zero =>
      simp only [pollAll, List.getElem?_cons_zero, Option.some.injEq] at h
      obtain ⟨hp, hne, hdelay⟩ := force_true ts p t h
      left
      refine ⟨hne, ?_, t, by simp, ?_⟩
      · intro i _ hi
        obtain rfl : i = 0 := by omega
        simp [hp]
      · simp only [UINT16] at *
        omega
    | succ k' =>
      simp only [pollAll, List.getElem?_cons_succ] at h
      rw [force_state] at h
      by_cases hp : p = true
      · rw [if_pos hp] at h
        by_cases hz : ts = 0
        · rw [if_pos hz] at h
          rcases ih (t % UINT16) t k' (Or.inr rfl) (fun q hq => hsorted.1 q hq) hsorted.2 h with
            ⟨_, hpr, tk, htk, hlt⟩ | ⟨j, tj, tk, hj, htj, htk, hlt, hpr⟩
          · right
            exact ⟨0, t, tk, by omega, by simp, by simpa using htk, hlt,
              pressedFrom_cons_zero _ _ _ hp hpr⟩
          · right
            exact ⟨j + 1, tj, tk, by omega, by simpa using htj, by simpa using htk, hlt,
              pressedFrom_cons_succ _ _ _ _ hpr⟩
        · rw [if_neg hz] at h
          rcases ih ts t0 k' hts hrest hsorted.2 h with
            ⟨_, hpr, tk, htk, hlt⟩ | ⟨j, tj, tk, hj, htj, htk, hlt, hpr⟩
          · left
            exact ⟨hz, pressedFrom_cons_zero _ _ _ hp hpr, tk, by simpa using htk, hlt⟩
          · right
            exact ⟨j + 1, tj, tk, by omega, by simpa using htj, by simpa using htk, hlt,
              pressedFrom_cons_succ _ _ _ _ hpr⟩
      · rw [if_neg hp] at h
        rcases ih 0 t0 k' (Or.inl rfl) hrest hsorted.2 h with
          ⟨hne, _⟩ | ⟨j, tj, tk, hj, htj, htk, hlt, hpr⟩
        · exact absurd rfl hne
        · right
          exact ⟨j + 1, tj, tk, by omega, by simpa using htj, by simpa using htk, hlt,
            pressedFrom_cons_succ _ _ _ _ hpr⟩

/-- With a set timestamp and the button held, every poll compares the 16-bit
difference with the threshold and keeps the timestamp. -/
theorem pollAll_pressed (ts : Nat) (hts : ts ≠ 0) (rest : List Nat) :
    pollAll ts (rest.map (fun t => (true, t))) =
      rest.map (fun t => decide ((t % UINT16 + UINT16 - ts) % UINT16 > 1000)) := by
  induction rest with
  | nil => rfl
  | cons t rest ih =>
    simp only [List.map_cons, pollAll, force_state, if_true, if_neg hts, ih]
    congr 1
    simp only [isForcePowerOffRequested, if_true, if_neg hts]
    split <;> simp_all

theorem maskHas_eq_testBit (runMask module : Nat) :
    maskHas runMask module = runMask.testBit module := by
  unfold maskHas
  rw [Nat.one_shiftLeft, Nat.and_two_pow]
  cases h : runMask.testBit module
  · simp
  · have : 2 ^ module ≠ 0 := by positivity
    simp [this]

theorem mem_execMixerFrequentActions (b : Build) (e : Event)
    (h : e ∈ execMixerFrequentActions b) : e.inMixingPass = false := by
  simp only [execMixerFrequentActions, List.mem_append, List.mem_singleton] at h
  rcases h with ((rfl | h) | h) | h
  · rfl
  · split at h <;> simp at h; subst h; rfl
  · split at h <;> simp at h; subst h; rfl
  · split at h <;> simp at h; subst h; rfl

/-- The inner loop entered for its iteration `c` (counted from 0) runs between
one and `r = 6 - c` iterations, all but the last ended by a timeout. -/
theorem waitLoop_from (b : Build) (w : Nat → Bool) :
    ∀ r c, c + r = 6 →
      ∃ n, n ≤ r ∧ (0 < r → 1 ≤ n) ∧
        waitLoop b w (MIXER_FREQUENT_ACTIONS_PERIOD * c) c =
          (List.replicate n (waitIteration b)).flatten ∧
        (∀ i, i + 1 < n → w (c + i) = true) ∧ (n < r → w (c + n - 1) = false) := by
  intro r
  induction r with
  | zero =>
    intro c hc
    refine ⟨0, le_refl _, fun h => absurd h (by omega), ?_, fun i hi => absurd hi (by omega),
      fun h => absurd h (by omega)⟩
    rw [waitLoop_ge]
    · rfl
    · simp only [MIXER_MAX_PERIOD, MIXER_FREQUENT_ACTIONS_PERIOD]; omega
  | succ r ih =>
    intro c hc
    have hlt : MIXER_FREQUENT_ACTIONS_PERIOD * c < MIXER_MAX_PERIOD := by
      simp only [MIXER_MAX_PERIOD, MIXER_FREQUENT_ACTIONS_PERIOD]; omega
    rw [waitLoop_lt b w _ c hlt]
    by_cases hw : w c = true
    · obtain ⟨n, hn, _, hloop, htrue, hfalse⟩ := ih (c + 1) (by omega)
      refine ⟨n + 1, by omega, fun _ => by omega, ?_, ?_, ?_⟩
      · rw [if_pos hw, show MIXER_FREQUENT_ACTIONS_PERIOD * c + MIXER_FREQUENT_ACTIONS_PERIOD =
          MIXER_FREQUENT_ACTIONS_PERIOD * (c + 1) by ring, hloop]
        simp [List.replicate_succ, waitIteration]
      · intro i hi
        cases i with
        | zero => exact hw
        | succ i =>
          have := htrue i (by omega)
          rwa [show c + (i + 1) = c + 1 + i by omega]
      · intro h
        have := hfalse (by omega)
        rwa [show c + (n + 1) - 1 = c + 1 + n - 1 by omega]
    · refine ⟨1, by omega, fun _ => le_refl _, ?_, fun i hi => absurd hi (by omega), fun _ => ?_⟩
      · rw [if_neg hw]
        simp [waitIteration]
      · simpa using hw

theorem mem_waitLoop (b : Build) (w : Nat → Bool) (e : Event) (h : e ∈ waitLoop b w 0 0) :
    e.inMixingPass = false := by
  obtain ⟨n, _, _, hloop, _⟩ := waitLoop_from b w 6 0 rfl
  rw [show MIXER_FREQUENT_ACTIONS_PERIOD * 0 = 0 from rfl] at hloop
  rw [hloop] at h
  simp only [List.mem_flatten, List.mem_replicate] at h
  obtain ⟨l, ⟨_, rfl⟩, he⟩ := h
  simp only [waitIteration, List.mem_append, List.mem_singleton] at he
  rcases he with he | rfl
  · exact mem_execMixerFrequentActions b e he
  · rfl

theorem execMixerFrequentActions_mem_waitLoop (b : Build) (w : Nat → Bool) :
    Event.execMixerFrequentActions ∈ waitLoop b w 0 0 := by
  rw [waitLoop_lt b w 0 0 (by decide)]
  simp [execMixerFrequentActions]

/-- The calls made before the test of `s_pulses_paused` when the task does not
return: none of them belongs to the mixing pass. -/
theorem mem_cycleWait (b : Build) (env : CycleEnv) (e : Event) (h : e ∈ cycleWait b env) :
    e.inMixingPass = false := by
  simp only [cycleWait, List.mem_append] at h
  rcases h with (h | h) | h
  · exact mem_waitLoop b _ e h
  · split at h <;> simp at h
    rcases h with rfl | rfl <;> rfl
  · split at h <;> simp at h
    rcases h with rfl | rfl <;> rfl

theorem mem_cycleCrsf (b : Build) (env : CycleEnv) (e : Event) (h : e ∈ cycleCrsf b env) :
    e.inMixingPass = false := by
  simp only [cycleCrsf] at h
  split at h <;> simp at h
  subst h; rfl

theorem mem_afterMixing (b : Build) (env : CycleEnv) (hb : Nat) (e : Event)
    (h : e ∈ afterMixing b env hb) : e.inMixingPass = false := by
  simp only [afterMixing, List.mem_append, List.mem_singleton] at h
  rcases h with ((h | h) | rfl) | h
  · split at h
    · simp only [List.mem_append] at h
      rcases h with h | h
      · split at h <;> simp at h; subst h; rfl
      · split at h <;> simp at h; subst h; rfl
    · simp at h
  · split at h <;> simp at h; subst h; rfl
  · rfl
  · split at h <;> simp at h; subst h; rfl

theorem mem_cycleHead (b : Build) (env : CycleEnv) (s : TaskState) (e : Event)
    (h : e ∈ cycleHead b env s) : e.inMixingPass = false := by
  simp only [cycleHead] at h
  split at h
  · simp only [List.mem_append, List.mem_singleton] at h
    rcases h with (h | rfl) | h
    · exact mem_cycleWait b env e h
    · rfl
    · exact mem_cycleCrsf b env e h
  · simp only [List.mem_append, List.mem_cons] at h
    rcases h with (h | rfl | h) | h
    · exact mem_cycleWait b env e h
    · rfl
    · split at h <;> simp at h; subst h; rfl
    · exact mem_cycleCrsf b env e h

/-- The two shapes of the trace of a cycle: the task returns after `pwrCheck`,
or the cycle reaches the test of `s_pulses_paused`. -/
theorem mixerCycle_trace (b : Build) (env : CycleEnv) (s : TaskState) :
    ((mixerCycle b env s).returned = true ∧
      (mixerCycle b env s).trace = cycleWait b env ++ [Event.pwrCheck, Event.TASK_RETURN]) ∨
    ((mixerCycle b env s).returned = false ∧
      (mixerCycle b env s).trace = cycleHead b env s ++
        (if env.s_pulses_paused then []
        else mixingPass b env ++ afterMixing b env s.heartbeat)) := by
  unfold mixerCycle cycleHead pausedCheck
  by_cases hs : b.SIMU = true
  · by_cases hp : env.pwrCheckPowerOff = true
    · left; simp [hs, hp]
    · right
      by_cases hq : env.s_pulses_paused = true <;> simp [hs, hp, hq]
  · right
    by_cases hq : env.s_pulses_paused = true <;> simp [hs, hq]

/-- A cycle in which the task returns makes no call of the mixing pass. -/
theorem mem_returned_trace (b : Build) (env : CycleEnv) (s : TaskState)
    (hret : (mixerCycle b env s).returned = true) (e : Event)
    (he : e ∈ (mixerCycle b env s).trace) : e.inMixingPass = false := by
  rcases mixerCycle_trace b env s with ⟨_, htr⟩ | ⟨hr, _⟩
  · rw [htr] at he
    rcases List.mem_append.1 he with h | h
    · exact mem_cycleWait b env e h
    · simp only [List.mem_cons, List.mem_singleton, List.not_mem_nil, or_false] at h
      rcases h with rfl | rfl <;> rfl
  · rw [hr] at hret
    exact absurd hret (by decide)

/-- The calls of `execMixerFrequentActions()` start with the call itself; the
rest are the wakeups compiled in. -/
theorem waitIteration_shape (b : Build) :
    ∃ extra, waitIteration b =
        Event.execMixerFrequentActions :: extra ++ [Event.mixerSchedulerWaitForTrigger 5] ∧
      ∀ e ∈ extra, e = Event.processSbusInput ∨ e = Event.gyroWakeup ∨
        e = Event.bluetoothWakeup := by
  refine ⟨(if b.SBUS_TRAINER then [Event.processSbusInput] else []) ++
    (if b.GYRO then [Event.gyroWakeup] else []) ++
    (if b.BLUETOOTH then [Event.bluetoothWakeup] else []), ?_, ?_⟩
  · simp [waitIteration, execMixerFrequentActions, MIXER_FREQUENT_ACTIONS_PERIOD]
  · intro e he
    simp only [List.mem_append] at he
    rcases he with (h | h) | h
    · split at h <;> simp at h; exact Or.inl h
    · split at h <;> simp at h; exact Or.inr (Or.inl h)
    · split at h <;> simp at h; exact Or.inr (Or.inr h)

/-- The events of the mixing pass, one by one. -/
theorem not_inMixingPass (e : Event) (h : e.inMixingPass = false) :
    e ≠ Event.RTOS_LOCK_MUTEX_mixerMutex ∧ e ≠ Event.doMixerCalculations ∧
    (∀ runMask, e ≠ Event.sendSynchronousPulses runMask) ∧
    e ≠ Event.setupPulsesInternalModule ∧ e ≠ Event.intmoduleSendNextFrame ∧
    e ≠ Event.setupPulsesExternalModule ∧ e ≠ Event.extmoduleSendNextFrame ∧
    e ≠ Event.doMixerPeriodicUpdates ∧ e ≠ Event.RTOS_UNLOCK_MUTEX_mixerMutex := by
  refine ⟨?_, ?_, fun m => ?_, ?_, ?_, ?_, ?_, ?_, ?_⟩ <;>
    (intro he; rw [he] at h; simp [Event.inMixingPass] at h)

/-- The trace of a cycle that reads `s_pulses_paused` as `false` and does not
return from the task, with the call of `sendSynchronousPulses` written out. -/
theorem unpaused_trace (b : Build) (env : CycleEnv) (s : TaskState)
    (hp : env.s_pulses_paused = false) (hret : (mixerCycle b env s).returned = false) :
    (mixerCycle b env s).trace =
      cycleHead b env s ++ [Event.RTOS_LOCK_MUTEX_mixerMutex, Event.doMixerCalculations] ++
        (if (b.HARDWARE_INTERNAL_MODULE || b.HARDWARE_EXTERNAL_MODULE) = true then
          Event.sendSynchronousPulses (mixerRunMask b) ::
            sendSynchronousPulses b env.moduleState env.setupPulsesInternalModule
              env.setupPulsesExternalModule (mixerRunMask b)
        else []) ++
        [Event.doMixerPeriodicUpdates, Event.RTOS_UNLOCK_MUTEX_mixerMutex] ++
        afterMixing b env s.heartbeat := by
  rcases mixerCycle_trace b env s with ⟨hr, _⟩ | ⟨_, htr⟩
  · rw [hr] at hret
    exact absurd hret (by decide)
  · rw [htr, hp]
    simp [mixingPass, dispatch]

/-- The inner loop opens the calls made before the test of `s_pulses_paused`. -/
theorem waitLoop_prefix_cycleHead (b : Build) (env : CycleEnv) (s : TaskState) :
    waitLoop b env.interruptedByTimeout 0 0 <+: cycleHead b env s := by
  have hw : waitLoop b env.interruptedByTimeout 0 0 <+: cycleWait b env := by
    unfold cycleWait
    rw [List.append_assoc]
    exact List.prefix_append _ _
  refine hw.trans ?_
  unfold cycleHead
  split
  · rw [List.append_assoc]
    exact List.prefix_append _ _
  · rw [List.append_assoc]
    exact List.prefix_append _ _

/-- The run mask `mixerTask` passes has the bit of every module compiled into
the build, as far as the bit fits the `uint8_t`. -/
theorem mixerRunMask_testBit (b : Build) :
    (b.HARDWARE_INTERNAL_MODULE = true → b.INTERNAL_MODULE < 8 →
      (mixerRunMask b).testBit b.INTERNAL_MODULE = true) ∧
    (b.HARDWARE_EXTERNAL_MODULE = true → b.EXTERNAL_MODULE < 8 →
      (mixerRunMask b).testBit b.EXTERNAL_MODULE = true) := by
  have hmod : ∀ x i : Nat, i < 8 → (x % 256).testBit i = x.testBit i := by
    intro x i hi
    rw [show (256 : Nat) = 2 ^ 8 from rfl, Nat.testBit_mod_two_pow]
    simp [hi]
  constructor
  · intro hi hlt
    unfold mixerRunMask
    cases he : b.HARDWARE_EXTERNAL_MODULE <;>
      simp [hi, hmod _ _ hlt, Nat.one_shiftLeft, Nat.testBit_two_pow_self]
  · intro he hlt
    unfold mixerRunMask
    cases hi : b.HARDWARE_INTERNAL_MODULE <;>
      simp [he, hmod _ _ hlt, Nat.one_shiftLeft, Nat.testBit_two_pow_self]

/-- When `sendSynchronousPulses` hands a frame to the internal module. -/
theorem intmodule_frame_iff (b : Build) (moduleState : Nat → Protocol)
    (setupInt setupExt : Bool) (runMask : Nat) :
    Event.intmoduleSendNextFrame ∈
        sendSynchronousPulses b moduleState setupInt setupExt runMask ↔
      b.HARDWARE_INTERNAL_MODULE = true ∧ runMask.testBit b.INTERNAL_MODULE = true ∧
        isModuleSynchronous b moduleState b.INTERNAL_MODULE = true ∧ setupInt = true := by
  rw [← maskHas_eq_testBit]
  cases hh : b.HARDWARE_INTERNAL_MODULE <;> cases hm : maskHas runMask b.INTERNAL_MODULE <;>
    cases hy : isModuleSynchronous b moduleState b.INTERNAL_MODULE <;> cases setupInt <;>
    simp [sendSynchronousPulses, hh, hm, hy]

/-- When `sendSynchronousPulses` hands a frame to the external module. -/
theorem extmodule_frame_iff (b : Build) (moduleState : Nat → Protocol)
    (setupInt setupExt : Bool) (runMask : Nat) :
    Event.extmoduleSendNextFrame ∈
        sendSynchronousPulses b moduleState setupInt setupExt runMask ↔
      b.HARDWARE_EXTERNAL_MODULE = true ∧ runMask.testBit b.EXTERNAL_MODULE = true ∧
        isModuleSynchronous b moduleState b.EXTERNAL_MODULE = true ∧ setupExt = true := by
  rw [← maskHas_eq_testBit]
  cases hh : b.HARDWARE_EXTERNAL_MODULE <;> cases hm : maskHas runMask b.EXTERNAL_MODULE <;>
    cases hy : isModuleSynchronous b moduleState b.EXTERNAL_MODULE <;> cases setupExt <;>
    simp [sendSynchronousPulses, hh, hm, hy]

/-! ## The deadline of a module: theorems -/

/-- C1, as the code has it: for a synchronous module the call leaves
`nextMixerTime[module]` equal to `old + P` when `old + P` is at or after `now`
(equality included), and equal to `now + P` when `old + P` is strictly before
`now`, with `P = period_ms / RTOS_MS_PER_TICK` and the sums taken as `uint32_t`
sums. -/
theorem schedule_synchronous_cases (b : Build) (moduleState : Nat → Protocol)
    (nextMixerTime : Nat → Nat) (module period_ms now : Nat)
    (hsync : isModuleSynchronous b moduleState module = true) :
    (now ≤ (nextMixerTime module + periodTicks b period_ms) % UINT32 →
      scheduleNextMixerCalculation b moduleState nextMixerTime module period_ms now module =
        (nextMixerTime module + periodTicks b period_ms) % UINT32) ∧
    ((nextMixerTime module + periodTicks b period_ms) % UINT32 < now →
      scheduleNextMixerCalculation b moduleState nextMixerTime module period_ms now module =
        (now + periodTicks b period_ms) % UINT32) := by
  rw [schedule_sync_value b moduleState nextMixerTime module period_ms now hsync]
  constructor
  · intro h
    rw [if_neg (by omega)]
  · intro h
    rw [if_pos h]

/-- Instance of `schedule_synchronous_cases`: PXX2 module, stored time 100,
period 10 ms, ticks of 1 ms, called at tick 110 and at tick 135. -/
theorem schedule_synchronous_cases_witness :
    isModuleSynchronous fullBuild pxx2Modules 0 = true ∧
    ((110 ≤ (100 + periodTicks fullBuild 10) % UINT32 →
      scheduleNextMixerCalculation fullBuild pxx2Modules (fun _ => 100) 0 10 110 0 =
        (100 + periodTicks fullBuild 10) % UINT32) ∧
    ((100 + periodTicks fullBuild 10) % UINT32 < 110 →
      scheduleNextMixerCalculation fullBuild pxx2Modules (fun _ => 100) 0 10 110 0 =
        (110 + periodTicks fullBuild 10) % UINT32)) :=
  ⟨by decide, schedule_synchronous_cases fullBuild pxx2Modules (fun _ => 100) 0 10 110 (by decide)⟩

/-- C1 as stated fails when the advanced deadline equals `now`: with a PXX2
module, stored time 100, period 10 ticks and `now = 110`, the advanced value 110
is not after `now`, and the stored result is 110, not `now + P = 120`. -/
theorem schedule_on_time_not_resynchronised :
    isModuleSynchronous fullBuild pxx2Modules 0 = true ∧
    periodTicks fullBuild 10 = 10 ∧
    100 + periodTicks fullBuild 10 ≤ 110 ∧
    scheduleNextMixerCalculation fullBuild pxx2Modules (fun _ => 100) 0 10 110 0 = 110 ∧
    scheduleNextMixerCalculation fullBuild pxx2Modules (fun _ => 100) 0 10 110 0 ≠
      110 + periodTicks fullBuild 10 := by
  decide

/-- C2, as the code has it: for a synchronous module whose advanced deadline
`old + P`, the `uint32_t` the code computes, is strictly before the tick `now`,
the call stores the `uint32_t` sum `now + P`, that is `(now + P) mod 2 ^ 32`;
whenever `now + P` is below `2 ^ 32` this is exactly `now + P` and not
`old + P`.  With ticks of 1 ms, `P = 10`, `old = 100` and `now = 135` the result
is 145, not 110. -/
theorem catch_up_suppression (b : Build) (moduleState : Nat → Protocol)
    (nextMixerTime : Nat → Nat) (module period_ms now : Nat)
    (hsync : isModuleSynchronous b moduleState module = true)
    (hlate : (nextMixerTime module + periodTicks b period_ms) % UINT32 < now) :
    scheduleNextMixerCalculation b moduleState nextMixerTime module period_ms now module =
        (now + periodTicks b period_ms) % UINT32 ∧
    (now + periodTicks b period_ms < UINT32 →
      scheduleNextMixerCalculation b moduleState nextMixerTime module period_ms now module =
          now + periodTicks b period_ms ∧
        scheduleNextMixerCalculation b moduleState nextMixerTime module period_ms now module ≠
          (nextMixerTime module + periodTicks b period_ms) % UINT32 ∧
        scheduleNextMixerCalculation b moduleState nextMixerTime module period_ms now module ≠
          nextMixerTime module + periodTicks b period_ms) ∧
    (scheduleNextMixerCalculation fullBuild pxx2Modules (fun _ => 100) 0 10 135 0 = 145 ∧
      scheduleNextMixerCalculation fullBuild pxx2Modules (fun _ => 100) 0 10 135 0 ≠ 110) := by
  rw [schedule_sync_value b moduleState nextMixerTime module period_ms now hsync, if_pos hlate]
  simp only [UINT32] at *
  refine ⟨trivial, fun h => ⟨by omega, by omega, by omega⟩, by decide⟩

/-- Instance of `catch_up_suppression`: PXX2 module, ticks of 1 ms, `P = 10`,
`old = 100`, `now = 135`. -/
theorem catch_up_suppression_witness :
    ((100 + periodTicks fullBuild 10) % UINT32 < 135) ∧
    scheduleNextMixerCalculation fullBuild pxx2Modules (fun _ => 100) 0 10 135 0 =
      (135 + periodTicks fullBuild 10) % UINT32 :=
  ⟨by decide,
    (catch_up_suppression fullBuild pxx2Modules (fun _ => 100) 0 10 135
      (by decide) (by decide)).1⟩

/-- C2 as stated fails when `now + P` passes `2 ^ 32`: with a PXX2 module,
stored time 0, period 10 ticks and `now = 4294967291`, the advanced deadline 10
is strictly before `now`, and the call stores 5, not `now + P = 4294967301`. -/
theorem catch_up_wraps :
    isModuleSynchronous fullBuild pxx2Modules 0 = true ∧
    periodTicks fullBuild 10 = 10 ∧
    0 + periodTicks fullBuild 10 < 4294967291 ∧
    scheduleNextMixerCalculation fullBuild pxx2Modules (fun _ => 0) 0 10 4294967291 0 = 5 ∧
    scheduleNextMixerCalculation fullBuild pxx2Modules (fun _ => 0) 0 10 4294967291 0 ≠
      4294967291 + periodTicks fullBuild 10 := by
  decide

/-- The stored deadline does not decrease over one call when neither sum
overflows 32 bits. -/
theorem schedule_step_le (b : Build) (moduleState : Nat → Protocol)
    (nextMixerTime : Nat → Nat) (module period_ms now : Nat)
    (hsync : isModuleSynchronous b moduleState module = true)
    (hold : nextMixerTime module + periodTicks b period_ms < UINT32)
    (hnow : now + periodTicks b period_ms < UINT32) :
    nextMixerTime module ≤
      scheduleNextMixerCalculation b moduleState nextMixerTime module period_ms now module := by
  rw [schedule_sync_value b moduleState nextMixerTime module period_ms now hsync]
  simp only [UINT32] at *
  split <;> omega

/-- C3, as the code has it: for a synchronous module and a fixed period, over
every sequence of calls at arbitrary ticks in which no sum overflows 32 bits
(each tick and each stored value, plus the period, stays below `2 ^ 32`), the
stored next-fire time after each call is at least its value before the call. -/
theorem schedule_monotone (b : Build) (moduleState : Nat → Protocol)
    (module period_ms : Nat) (nows : List Nat) (nextMixerTime : Nat → Nat)
    (hsync : isModuleSynchronous b moduleState module = true)
    (hnow : ∀ now ∈ nows, now + periodTicks b period_ms < UINT32)
    (hstored : ∀ v ∈ nextMixerTime module ::
        scheduleTrace b moduleState module period_ms nextMixerTime nows,
      v + periodTicks b period_ms < UINT32) :
    List.Chain (fun before after => before ≤ after) (nextMixerTime module)
      (scheduleTrace b moduleState module period_ms nextMixerTime nows) := by
  induction nows generalizing nextMixerTime with
  | nil => exact List.Chain.nil
  | cons now rest ih =>
    simp only [scheduleTrace]
    refine List.Chain.cons ?_ (ih _ ?_ ?_)
    · exact schedule_step_le b moduleState nextMixerTime module period_ms now hsync
        (hstored _ (List.mem_cons_self _ _)) (hnow _ (List.mem_cons_self _ _))
    · intro n hn
      exact hnow n (List.mem_cons_of_mem _ hn)
    · intro v hv
      exact hstored v (List.mem_cons_of_mem _ (by simpa [scheduleTrace] using hv))

/-- Instance of `schedule_monotone`: PXX2 module, period 10 ticks, stored time
100, calls at ticks 105, 135, 120 and 160. -/
theorem schedule_monotone_witness :
    scheduleTrace fullBuild pxx2Modules 0 10 (fun _ => 100) [105, 135, 120, 160] =
      [110, 145, 155, 165] ∧
    List.Chain (fun before after => before ≤ after) 100
      (scheduleTrace fullBuild pxx2Modules 0 10 (fun _ => 100) [105, 135, 120, 160]) :=
  ⟨by decide,
    schedule_monotone fullBuild pxx2Modules 0 10 [105, 135, 120, 160] (fun _ => 100)
      (by decide) (by decide) (by decide)⟩

/-- C3 as stated fails at the wrap of the 32-bit tick count: with a PXX2 module,
stored time `2 ^ 32 - 1`, period 1 tick and `now = 0`, the stored time after the
call is 0, below its value before the call. -/
theorem schedule_wraps_backwards :
    isModuleSynchronous fullBuild pxx2Modules 0 = true ∧
    scheduleNextMixerCalculation fullBuild pxx2Modules (fun _ => 4294967295) 0 1 0 0 = 0 ∧
    ¬ (4294967295 ≤
      scheduleNextMixerCalculation fullBuild pxx2Modules (fun _ => 4294967295) 0 1 0 0) := by
  decide

/-- C4, as the code has it: for an asynchronous module the call stores the
`uint32_t` sum `now + period_ms / RTOS_MS_PER_TICK`, that is the sum modulo
`2 ^ 32`, which is exactly the sum whenever it is below `2 ^ 32`, whatever the
stored value was. -/
theorem schedule_asynchronous (b : Build) (moduleState : Nat → Protocol)
    (nextMixerTime : Nat → Nat) (module period_ms now : Nat)
    (hasync : isModuleSynchronous b moduleState module = false) :
    scheduleNextMixerCalculation b moduleState nextMixerTime module period_ms now module =
        (now + period_ms / b.RTOS_MS_PER_TICK) % UINT32 ∧
    (now + period_ms / b.RTOS_MS_PER_TICK < UINT32 →
      scheduleNextMixerCalculation b moduleState nextMixerTime module period_ms now module =
        now + period_ms / b.RTOS_MS_PER_TICK) ∧
    (∀ other : Nat → Nat,
      scheduleNextMixerCalculation b moduleState other module period_ms now module =
        scheduleNextMixerCalculation b moduleState nextMixerTime module period_ms now module) := by
  have key := fun next => schedule_async_value b moduleState next module period_ms now hasync
  simp only [periodTicks] at key
  refine ⟨key _, fun h => ?_, fun other => ?_⟩
  · rw [key, Nat.mod_eq_of_lt h]
  · rw [key, key]

/-- Instance of `schedule_asynchronous`: PPM module, period 10 ms, ticks of
1 ms, stored time 100 and call at the earlier tick 35. -/
theorem schedule_asynchronous_witness :
    isModuleSynchronous fullBuild ppmModules 0 = false ∧
    scheduleNextMixerCalculation fullBuild ppmModules (fun _ => 100) 0 10 35 0 = 45 :=
  ⟨by decide,
    (schedule_asynchronous fullBuild ppmModules (fun _ => 100) 0 10 35 (by decide)).1⟩

/-- C4 as stated fails when the sum passes `2 ^ 32`: with a PPM module, period
10 ticks and `now = 4294967295`, the call stores 9, not
`now + period_ms / RTOS_MS_PER_TICK = 4294967305`. -/
theorem schedule_asynchronous_wraps :
    isModuleSynchronous fullBuild ppmModules 0 = false ∧
    scheduleNextMixerCalculation fullBuild ppmModules (fun _ => 100) 0 10 4294967295 0 = 9 ∧
    scheduleNextMixerCalculation fullBuild ppmModules (fun _ => 100) 0 10 4294967295 0 ≠
      4294967295 + 10 / fullBuild.RTOS_MS_PER_TICK := by
  decide

/-! ## The debounce of the power button: theorems -/

/-- C5: over every sequence of polls at non-decreasing ticks of 10 ms, started
with the timestamp cleared, a poll returns `true` only if the button was read
as pressed at that poll and at every earlier poll back to one made more than
1000 ticks before it.  Hence when no run of pressed polls spans more than 1000
ticks, as for a press held 9.9 s (990 ticks) and released, no poll returns
`true`. -/
theorem no_early_force_power_off (polls : List (Bool × Nat))
    (hsorted : polls.Pairwise (fun earlier later => earlier.2 ≤ later.2)) :
    (∀ k, (pollAll 0 polls)[k]? = some true →
      ∃ j tj tk, j < k ∧ (polls[j]?).map Prod.snd = some tj ∧
        (polls[k]?).map Prod.snd = some tk ∧ tj + 1000 < tk ∧ PressedFrom polls j k) ∧
    ((∀ j k tj tk, j ≤ k → (polls[j]?).map Prod.snd = some tj →
        (polls[k]?).map Prod.snd = some tk → PressedFrom polls j k → tk ≤ tj + 1000) →
      ∀ r ∈ pollAll 0 polls, r = false) := by
  have main : ∀ k, (pollAll 0 polls)[k]? = some true →
      ∃ j tj tk, j < k ∧ (polls[j]?).map Prod.snd = some tj ∧
        (polls[k]?).map Prod.snd = some tk ∧ tj + 1000 < tk ∧ PressedFrom polls j k := by
    intro k hk
    rcases pollAll_true_run polls 0 0 k (Or.inl rfl) (fun _ _ => Nat.zero_le _) hsorted hk with
      ⟨hne, _⟩ | h
    · exact absurd rfl hne
    · exact h
  refine ⟨main, fun hshort r hr => ?_⟩
  cases r with
  | false => rfl
  | true =>
    obtain ⟨k, hk⟩ := List.getElem?_of_mem hr
    obtain ⟨j, tj, tk, hj, htj, htk, hlt, hpr⟩ := main k hk
    have := hshort j k tj tk (by omega) htj htk hpr
    omega

/-- Instance of `no_early_force_power_off`: the button held over polls at ticks
1, 500 and 1002; the third poll returns `true`. -/
theorem no_early_force_power_off_witness :
    pollAll 0 [(true, 1), (true, 500), (true, 1002)] = [false, false, true] ∧
    ∃ j tj tk, j < 2 ∧ ([(true, 1), (true, 500), (true, 1002)][j]?).map Prod.snd = some tj ∧
      ([(true, 1), (true, 500), (true, 1002)][2]?).map Prod.snd = some tk ∧ tj + 1000 < tk ∧
      PressedFrom [(true, 1), (true, 500), (true, 1002)] j 2 :=
  ⟨by decide,
    (no_early_force_power_off [(true, 1), (true, 500), (true, 1002)] (by decide)).1 2
      (by decide)⟩

/-- C6, as the code has it: over a continuous press started with the timestamp
cleared at a tick `t0` whose low 16 bits are not zero, and lasting less than
`2 ^ 16` ticks, the first poll returns `false` and every later poll, made at tick
`t`, returns `true` exactly when `t - t0 > 1000`: every poll past the threshold
returns `true`, not one only, and none does when the press stops at 10.0 s. -/
theorem force_power_off_every_poll (t0 : Nat) (rest : List Nat)
    (h0 : t0 % UINT16 ≠ 0) (hge : ∀ t ∈ rest, t0 ≤ t) (hlt : ∀ t ∈ rest, t < t0 + UINT16) :
    pollAll 0 ((true, t0) :: rest.map (fun t => (true, t))) =
      false :: rest.map (fun t => decide (t0 + 1000 < t)) := by
  have hfirst : isForcePowerOffRequested 0 true t0 = (false, t0 % UINT16) := by
    simp [isForcePowerOffRequested]
  simp only [pollAll, hfirst, pollAll_pressed (t0 % UINT16) h0 rest]
  congr 1
  apply List.map_congr_left
  intro t ht
  have h1 := hge t ht
  have h2 := hlt t ht
  simp only [UINT16] at *
  congr 1
  apply propext
  constructor <;> intro h <;> omega

/-- Instance of `force_power_off_every_poll`: a press polled at ticks 1, 1001,
1002 and 1003. -/
theorem force_power_off_every_poll_witness :
    pollAll 0 ((true, 1) :: [1001, 1002, 1003].map (fun t => (true, t))) =
      false :: [1001, 1002, 1003].map (fun t => decide (1 + 1000 < t)) :=
  force_power_off_every_poll 1 [1001, 1002, 1003] (by decide) (by decide) (by decide)

/-- C6 as stated fails: a press polled at ticks 1, 1002 and 1003 is continuous
for more than 10 s and two polls return `true`; a press polled at ticks 1 and
1001 is continuous for 10.0 s and no poll returns `true`. -/
theorem force_power_off_not_exactly_once :
    pollAll 0 [(true, 1), (true, 1002), (true, 1003)] = [false, true, true] ∧
    (pollAll 0 [(true, 1), (true, 1002), (true, 1003)]).count true = 2 ∧
    pollAll 0 [(true, 1), (true, 1001)] = [false, false] ∧
    (pollAll 0 [(true, 1), (true, 1001)]).count true = 0 := by
  decide

/-- C7, as the code has it: while the button is pressed and the timestamp was
set at tick `ts` (low 16 bits not zero), a poll at tick `now` less than `2 ^ 16`
ticks after `ts` returns `true` if and only if `now - ts` exceeds 1000; in
general it compares the difference modulo `2 ^ 16`. -/
theorem force_power_off_threshold (ts now : Nat) (hset : ts % UINT16 ≠ 0) (hle : ts ≤ now) :
    ((isForcePowerOffRequested (ts % UINT16) true now).1 = true ↔
      1000 < (now - ts) % UINT16) ∧
    (now - ts < UINT16 →
      ((isForcePowerOffRequested (ts % UINT16) true now).1 = true ↔ 1000 < now - ts)) := by
  have key : (isForcePowerOffRequested (ts % UINT16) true now).1 = true ↔
      1000 < (now % UINT16 + UINT16 - ts % UINT16) % UINT16 := by
    simp only [isForcePowerOffRequested, if_true, if_neg hset]
    split <;> simp_all
  rw [key]
  simp only [UINT16] at *
  constructor
  · constructor <;> intro h <;> omega
  · intro hlt
    constructor <;> intro h <;> omega

/-- Instance of `force_power_off_threshold`: timestamp set at tick 65535, poll
at tick 66600, after the low 16 bits of the counter wrapped. -/
theorem force_power_off_threshold_witness :
    65535 % UINT16 ≠ 0 ∧ 65535 ≤ 66600 ∧
    ((isForcePowerOffRequested (65535 % UINT16) true 66600).1 = true ↔
      1000 < (66600 - 65535) % UINT16) :=
  ⟨by decide, by decide, (force_power_off_threshold 65535 66600 (by decide) (by decide)).1⟩

/-- C7 as stated fails for a press of `2 ^ 16` ticks: with the timestamp set at
tick 1 and the button still pressed at tick 65537, the elapsed time 65536
exceeds 1000 ticks and the poll returns `false`. -/
theorem force_power_off_long_press_false :
    1 % UINT16 ≠ 0 ∧ 1000 < 65537 - 1 ∧
    (isForcePowerOffRequested (1 % UINT16) true 65537).1 = false := by
  decide

/-! ## The mixer task: theorems -/

/-- C8: an outer cycle of `mixerTask` that reads `s_pulses_paused` as `true`
never locks `mixerMutex`, never calls `doMixerCalculations`, never calls
`sendSynchronousPulses` (nor hands a frame to a module), and still calls
`execMixerFrequentActions` at least once. -/
theorem pause_gating (b : Build) (env : CycleEnv) (s : TaskState)
    (hpaused : env.s_pulses_paused = true) :
    Event.RTOS_LOCK_MUTEX_mixerMutex ∉ (mixerCycle b env s).trace ∧
    Event.doMixerCalculations ∉ (mixerCycle b env s).trace ∧
    (∀ runMask, Event.sendSynchronousPulses runMask ∉ (mixerCycle b env s).trace) ∧
    Event.intmoduleSendNextFrame ∉ (mixerCycle b env s).trace ∧
    Event.extmoduleSendNextFrame ∉ (mixerCycle b env s).trace ∧
    Event.execMixerFrequentActions ∈ (mixerCycle b env s).trace := by
  have hfreq : Event.execMixerFrequentActions ∈ cycleWait b env := by
    simp only [cycleWait, List.mem_append]
    exact Or.inl (Or.inl (execMixerFrequentActions_mem_waitLoop b _))
  have hall : (∀ e ∈ (mixerCycle b env s).trace, e.inMixingPass = false) ∧
      Event.execMixerFrequentActions ∈ (mixerCycle b env s).trace := by
    rcases mixerCycle_trace b env s with ⟨_, htr⟩ | ⟨_, htr⟩
    · rw [htr]
      refine ⟨fun e he => ?_, List.mem_append_left _ hfreq⟩
      rcases List.mem_append.1 he with h | h
      · exact mem_cycleWait b env e h
      · simp only [List.mem_cons, List.mem_singleton, List.not_mem_nil, or_false] at h
        rcases h with rfl | rfl <;> rfl
    · rw [htr, if_pos hpaused, List.append_nil]
      refine ⟨fun e he => mem_cycleHead b env s e he, ?_⟩
      unfold cycleHead
      split
      · exact List.mem_append_left _ (List.mem_append_left _ hfreq)
      · exact List.mem_append_left _ (List.mem_append_left _ hfreq)
  refine ⟨fun h => ?_, fun h => ?_, fun m h => ?_, fun h => ?_, fun h => ?_, hall.2⟩ <;>
    exact absurd (hall.1 _ h) (by simp [Event.inMixingPass])

/-- Instance of `pause_gating`: a paused cycle of the full build. -/
theorem pause_gating_witness :
    pausedEnv.s_pulses_paused = true ∧
    Event.RTOS_LOCK_MUTEX_mixerMutex ∉ (mixerCycle fullBuild pausedEnv initState).trace ∧
    Event.execMixerFrequentActions ∈ (mixerCycle fullBuild pausedEnv initState).trace :=
  ⟨rfl, (pause_gating fullBuild pausedEnv initState rfl).1,
    (pause_gating fullBuild pausedEnv initState rfl).2.2.2.2.2⟩

/-- C9, as the code has it: in every outer cycle of `mixerTask`, whatever the
waits return, the inner loop makes `n` times, with `1 ≤ n ≤ 6` (a budget of at
most 30 ms), the call `execMixerFrequentActions` (with the wakeups it makes)
followed by one call `mixerSchedulerWaitForTrigger(5)`; every wait but the last
ended by its timeout, the loop stops after the first wait released by a
trigger, and it runs 6 times when every wait times out.  The loop ends and its
calls open the cycle; a cycle that reads `s_pulses_paused` as `false` and does
not return from the task then makes the whole mixing pass: lock,
`doMixerCalculations`, the call of `sendSynchronousPulses`,
`doMixerPeriodicUpdates`, unlock. -/
theorem bounded_trigger_wait (b : Build) (env : CycleEnv) (s : TaskState) :
    (∃ n extra, 1 ≤ n ∧ n ≤ 6 ∧ 5 * n ≤ 30 ∧
      waitLoop b env.interruptedByTimeout 0 0 =
        (List.replicate n (Event.execMixerFrequentActions :: extra ++
          [Event.mixerSchedulerWaitForTrigger 5])).flatten ∧
      (∀ e ∈ extra, e = Event.processSbusInput ∨ e = Event.gyroWakeup ∨
        e = Event.bluetoothWakeup) ∧
      (∀ i, i + 1 < n → env.interruptedByTimeout i = true) ∧
      (n < 6 → env.interruptedByTimeout (n - 1) = false) ∧
      ((∀ i, i < 6 → env.interruptedByTimeout i = true) → n = 6)) ∧
    waitLoop b env.interruptedByTimeout 0 0 <+: (mixerCycle b env s).trace ∧
    (env.s_pulses_paused = false → (mixerCycle b env s).returned = false →
      ∃ pre post, waitLoop b env.interruptedByTimeout 0 0 <+: pre ∧
        (mixerCycle b env s).trace =
          pre ++ [Event.RTOS_LOCK_MUTEX_mixerMutex, Event.doMixerCalculations] ++
            (if (b.HARDWARE_INTERNAL_MODULE || b.HARDWARE_EXTERNAL_MODULE) = true then
              Event.sendSynchronousPulses (mixerRunMask b) ::
                sendSynchronousPulses b env.moduleState env.setupPulsesInternalModule
                  env.setupPulsesExternalModule (mixerRunMask b)
            else []) ++
            [Event.doMixerPeriodicUpdates, Event.RTOS_UNLOCK_MUTEX_mixerMutex] ++ post) := by
  refine ⟨?_, ?_, ?_⟩
  · obtain ⟨n, hn, hpos, hloop, htrue, hfalse⟩ := waitLoop_from b env.interruptedByTimeout 6 0 rfl
    obtain ⟨extra, hshape, hextra⟩ := waitIteration_shape b
    refine ⟨n, extra, hpos (by omega), hn, by omega, ?_, hextra, ?_, ?_, ?_⟩
    · rw [← hshape]
      exact hloop
    · intro i hi
      simpa using htrue i hi
    · intro h
      simpa using hfalse h
    · intro hall
      by_contra hne
      have h6 : n < 6 := by omega
      have hf := hfalse h6
      have ht := hall (0 + n - 1) (by omega)
      rw [hf] at ht
      exact absurd ht (by decide)
  · have hw : waitLoop b env.interruptedByTimeout 0 0 <+: cycleWait b env := by
      unfold cycleWait
      rw [List.append_assoc]
      exact List.prefix_append _ _
    rcases mixerCycle_trace b env s with ⟨_, htr⟩ | ⟨_, htr⟩
    · rw [htr]
      exact hw.trans (List.prefix_append _ _)
    · rw [htr]
      exact (waitLoop_prefix_cycleHead b env s).trans (List.prefix_append _ _)
  · intro hp hret
    exact ⟨cycleHead b env s, afterMixing b env s.heartbeat, waitLoop_prefix_cycleHead b env s,
      unpaused_trace b env s hp hret⟩

/-- Instance of `bounded_trigger_wait`: in the full build, with every wait
timing out and mixing not paused, the cycle makes the mixing pass. -/
theorem bounded_trigger_wait_witness :
    idleEnv.s_pulses_paused = false ∧ (mixerCycle fullBuild idleEnv initState).returned = false ∧
    ∃ pre post, waitLoop fullBuild idleEnv.interruptedByTimeout 0 0 <+: pre ∧
      (mixerCycle fullBuild idleEnv initState).trace =
        pre ++ [Event.RTOS_LOCK_MUTEX_mixerMutex, Event.doMixerCalculations] ++
          (if (fullBuild.HARDWARE_INTERNAL_MODULE || fullBuild.HARDWARE_EXTERNAL_MODULE) = true
            then
              Event.sendSynchronousPulses (mixerRunMask fullBuild) ::
                sendSynchronousPulses fullBuild idleEnv.moduleState
                  idleEnv.setupPulsesInternalModule idleEnv.setupPulsesExternalModule
                  (mixerRunMask fullBuild)
            else []) ++
          [Event.doMixerPeriodicUpdates, Event.RTOS_UNLOCK_MUTEX_mixerMutex] ++ post :=
  ⟨rfl, rfl, (bounded_trigger_wait fullBuild idleEnv initState).2.2 rfl rfl⟩

/-- C9 as stated fails in a simulator build at power-off: with `SIMU` defined,
`pwrCheck()` reporting `e_power_off` and mixing not paused, the inner loop runs
and the task returns; the cycle neither locks `mixerMutex` nor calls
`doMixerCalculations`. -/
theorem simu_power_off_no_mixing_pass :
    powerOffEnv.s_pulses_paused = false ∧
    (mixerCycle simuBuild powerOffEnv initState).returned = true ∧
    Event.execMixerFrequentActions ∈ (mixerCycle simuBuild powerOffEnv initState).trace ∧
    Event.RTOS_LOCK_MUTEX_mixerMutex ∉ (mixerCycle simuBuild powerOffEnv initState).trace ∧
    Event.doMixerCalculations ∉ (mixerCycle simuBuild powerOffEnv initState).trace := by
  have hret : (mixerCycle simuBuild powerOffEnv initState).returned = true := rfl
  have hall := mem_returned_trace simuBuild powerOffEnv initState hret
  refine ⟨rfl, hret, ?_, fun h => ?_, fun h => ?_⟩
  · rcases mixerCycle_trace simuBuild powerOffEnv initState with ⟨_, htr⟩ | ⟨hr, _⟩
    · rw [htr]
      refine List.mem_append_left _ ?_
      simp only [cycleWait, List.mem_append]
      exact Or.inl (Or.inl (execMixerFrequentActions_mem_waitLoop _ _))
    · rw [hr] at hret
      exact absurd hret (by decide)
  · exact absurd (hall _ h) (by simp [Event.inMixingPass])
  · exact absurd (hall _ h) (by simp [Event.inMixingPass])

/-- C10, as the code has it: `sendSynchronousPulses` hands a frame to a module
compiled into the build if and only if the bit of the module is set in the run
mask, the module is synchronous and its `setupPulses` call returns `true`; for
an asynchronous module neither `setupPulses` is called nor a frame handed over.
The mask `mixerTask` passes has the bit of every module compiled in.  In a
cycle of `mixerTask` that reads `s_pulses_paused` as `false` and does not return
from the task, the call of `sendSynchronousPulses` with that mask and the calls
it makes lie right after `doMixerCalculations` and before
`doMixerPeriodicUpdates` and the unlock of `mixerMutex`, no call of the mixing
pass is made outside that stretch, and a module is handed a frame in the cycle
if and only if it is compiled in, its bit is in the mask, it is synchronous and
its `setupPulses` call returns `true`. -/
theorem dispatch_condition (b : Build) (moduleState : Nat → Protocol)
    (setupInt setupExt : Bool) (runMask : Nat) (env : CycleEnv) (s : TaskState) :
    (Event.intmoduleSendNextFrame ∈
        sendSynchronousPulses b moduleState setupInt setupExt runMask ↔
      b.HARDWARE_INTERNAL_MODULE = true ∧ runMask.testBit b.INTERNAL_MODULE = true ∧
        isModuleSynchronous b moduleState b.INTERNAL_MODULE = true ∧ setupInt = true) ∧
    (Event.extmoduleSendNextFrame ∈
        sendSynchronousPulses b moduleState setupInt setupExt runMask ↔
      b.HARDWARE_EXTERNAL_MODULE = true ∧ runMask.testBit b.EXTERNAL_MODULE = true ∧
        isModuleSynchronous b moduleState b.EXTERNAL_MODULE = true ∧ setupExt = true) ∧
    (isModuleSynchronous b moduleState b.INTERNAL_MODULE = false →
      Event.setupPulsesInternalModule ∉
          sendSynchronousPulses b moduleState setupInt setupExt runMask ∧
        Event.intmoduleSendNextFrame ∉
          sendSynchronousPulses b moduleState setupInt setupExt runMask) ∧
    (isModuleSynchronous b moduleState b.EXTERNAL_MODULE = false →
      Event.setupPulsesExternalModule ∉
          sendSynchronousPulses b moduleState setupInt setupExt runMask ∧
        Event.extmoduleSendNextFrame ∉
          sendSynchronousPulses b moduleState setupInt setupExt runMask) ∧
    (b.HARDWARE_INTERNAL_MODULE = true → b.INTERNAL_MODULE < 8 →
      (mixerRunMask b).testBit b.INTERNAL_MODULE = true) ∧
    (b.HARDWARE_EXTERNAL_MODULE = true → b.EXTERNAL_MODULE < 8 →
      (mixerRunMask b).testBit b.EXTERNAL_MODULE = true) ∧
    (env.s_pulses_paused = false → (mixerCycle b env s).returned = false →
      (∃ pre post, (mixerCycle b env s).trace =
          pre ++ [Event.RTOS_LOCK_MUTEX_mixerMutex, Event.doMixerCalculations] ++
            (if (b.HARDWARE_INTERNAL_MODULE || b.HARDWARE_EXTERNAL_MODULE) = true then
              Event.sendSynchronousPulses (mixerRunMask b) ::
                sendSynchronousPulses b env.moduleState env.setupPulsesInternalModule
                  env.setupPulsesExternalModule (mixerRunMask b)
            else []) ++
            [Event.doMixerPeriodicUpdates, Event.RTOS_UNLOCK_MUTEX_mixerMutex] ++ post ∧
        ∀ e, e ∈ pre ∨ e ∈ post →
          e ≠ Event.RTOS_LOCK_MUTEX_mixerMutex ∧ e ≠ Event.doMixerCalculations ∧
          (∀ mask, e ≠ Event.sendSynchronousPulses mask) ∧
          e ≠ Event.setupPulsesInternalModule ∧ e ≠ Event.intmoduleSendNextFrame ∧
          e ≠ Event.setupPulsesExternalModule ∧ e ≠ Event.extmoduleSendNextFrame ∧
          e ≠ Event.doMixerPeriodicUpdates ∧ e ≠ Event.RTOS_UNLOCK_MUTEX_mixerMutex) ∧
      (Event.intmoduleSendNextFrame ∈ (mixerCycle b env s).trace ↔
        b.HARDWARE_INTERNAL_MODULE = true ∧
          (mixerRunMask b).testBit b.INTERNAL_MODULE = true ∧
          isModuleSynchronous b env.moduleState b.INTERNAL_MODULE = true ∧
          env.setupPulsesInternalModule = true) ∧
      (Event.extmoduleSendNextFrame ∈ (mixerCycle b env s).trace ↔
        b.HARDWARE_EXTERNAL_MODULE = true ∧
          (mixerRunMask b).testBit b.EXTERNAL_MODULE = true ∧
          isModuleSynchronous b env.moduleState b.EXTERNAL_MODULE = true ∧
          env.setupPulsesExternalModule = true)) := by
  refine ⟨intmodule_frame_iff b moduleState setupInt setupExt runMask,
    extmodule_frame_iff b moduleState setupInt setupExt runMask, ?_, ?_,
    (mixerRunMask_testBit b).1, (mixerRunMask_testBit b).2, ?_⟩
  · intro hy
    constructor <;> simp [sendSynchronousPulses, hy]
  · intro hy
    constructor <;> simp [sendSynchronousPulses, hy]
  · intro hp hret
    have htr := unpaused_trace b env s hp hret
    have hhead : ∀ e ∈ cycleHead b env s, e.inMixingPass = false := mem_cycleHead b env s
    have htail : ∀ e ∈ afterMixing b env s.heartbeat, e.inMixingPass = false :=
      mem_afterMixing b env s.heartbeat
    refine ⟨⟨cycleHead b env s, afterMixing b env s.heartbeat, htr, fun e he => ?_⟩, ?_, ?_⟩
    · rcases he with he | he
      · exact not_inMixingPass e (hhead e he)
      · exact not_inMixingPass e (htail e he)
    · have h1 : Event.intmoduleSendNextFrame ∉ cycleHead b env s :=
        fun h => absurd (hhead _ h) (by simp [Event.inMixingPass])
      have h2 : Event.intmoduleSendNextFrame ∉ afterMixing b env s.heartbeat :=
        fun h => absurd (htail _ h) (by simp [Event.inMixingPass])
      rw [htr, ← intmodule_frame_iff b env.moduleState env.setupPulsesInternalModule
        env.setupPulsesExternalModule (mixerRunMask b)]
      by_cases hw : (b.HARDWARE_INTERNAL_MODULE || b.HARDWARE_EXTERNAL_MODULE) = true
      · simp [h1, h2, hw]
      · have hi : b.HARDWARE_INTERNAL_MODULE = false := by
          cases h : b.HARDWARE_INTERNAL_MODULE <;> simp_all
        have he : b.HARDWARE_EXTERNAL_MODULE = false := by
          cases h : b.HARDWARE_EXTERNAL_MODULE <;> simp_all
        simp [h1, h2, hi, he, sendSynchronousPulses]
    · have h1 : Event.extmoduleSendNextFrame ∉ cycleHead b env s :=
        fun h => absurd (hhead _ h) (by simp [Event.inMixingPass])
      have h2 : Event.extmoduleSendNextFrame ∉ afterMixing b env s.heartbeat :=
        fun h => absurd (htail _ h) (by simp [Event.inMixingPass])
      rw [htr, ← extmodule_frame_iff b env.moduleState env.setupPulsesInternalModule
        env.setupPulsesExternalModule (mixerRunMask b)]
      by_cases hw : (b.HARDWARE_INTERNAL_MODULE || b.HARDWARE_EXTERNAL_MODULE) = true
      · simp [h1, h2, hw]
      · have hi : b.HARDWARE_INTERNAL_MODULE = false := by
          cases h : b.HARDWARE_INTERNAL_MODULE <;> simp_all
        have he : b.HARDWARE_EXTERNAL_MODULE = false := by
          cases h : b.HARDWARE_EXTERNAL_MODULE <;> simp_all
        simp [h1, h2, hi, he, sendSynchronousPulses]

/-- Instance of `dispatch_condition`: the full build with both modules on PXX2
and ready, in a cycle that is not paused; the internal module is handed a
frame. -/
theorem dispatch_condition_witness :
    idleEnv.s_pulses_paused = false ∧
    (mixerCycle fullBuild idleEnv initState).returned = false ∧
    (Event.intmoduleSendNextFrame ∈ (mixerCycle fullBuild idleEnv initState).trace ↔
      fullBuild.HARDWARE_INTERNAL_MODULE = true ∧
        (mixerRunMask fullBuild).testBit fullBuild.INTERNAL_MODULE = true ∧
        isModuleSynchronous fullBuild idleEnv.moduleState fullBuild.INTERNAL_MODULE = true ∧
        idleEnv.setupPulsesInternalModule = true) ∧
    (fullBuild.HARDWARE_INTERNAL_MODULE = true ∧
      (mixerRunMask fullBuild).testBit fullBuild.INTERNAL_MODULE = true ∧
      isModuleSynchronous fullBuild idleEnv.moduleState fullBuild.INTERNAL_MODULE = true ∧
      idleEnv.setupPulsesInternalModule = true) :=
  ⟨rfl, rfl,
    ((dispatch_condition fullBuild pxx2Modules true true 3 idleEnv initState).2.2.2.2.2.2
      rfl rfl).2.1,
    by decide⟩

/-- C10 as stated fails in a simulator build at power-off: with `SIMU` defined,
`pwrCheck()` reporting `e_power_off` and mixing not paused, both modules are
compiled in, in the mask, synchronous and ready, and the cycle neither calls
`sendSynchronousPulses` nor hands a frame to a module. -/
theorem simu_power_off_no_dispatch :
    powerOffEnv.s_pulses_paused = false ∧
    (simuBuild.HARDWARE_INTERNAL_MODULE = true ∧
      (mixerRunMask simuBuild).testBit simuBuild.INTERNAL_MODULE = true ∧
      isModuleSynchronous simuBuild powerOffEnv.moduleState simuBuild.INTERNAL_MODULE = true ∧
      powerOffEnv.setupPulsesInternalModule = true) ∧
    (∀ mask, Event.sendSynchronousPulses mask ∉
      (mixerCycle simuBuild powerOffEnv initState).trace) ∧
    Event.intmoduleSendNextFrame ∉ (mixerCycle simuBuild powerOffEnv initState).trace ∧
    Event.extmoduleSendNextFrame ∉ (mixerCycle simuBuild powerOffEnv initState).trace := by
  have hall := mem_returned_trace simuBuild powerOffEnv initState rfl
  refine ⟨rfl, by decide, fun mask h => ?_, fun h => ?_, fun h => ?_⟩ <;>
    exact absurd (hall _ h) (by simp [Event.inMixingPass])

end OpenTX
